import Mathlib

/-!
Verification of the retrieval-and-reconciliation pipeline of the
`python_class_scrapper` repository.

The Python sources (`main.py`, `src/services/info_service.py`,
`src/services/math_service.py`, `src/managers/scrapper_manager.py`) are
shallowly embedded below.  Pure string manipulation is translated to
executable functions on `List Char` / `String`; the interactions with the
browser-automation engine (page navigation, element queries, downloads)
are modelled by explicit outcome environments: each external operation is
a parameter recording whether it succeeded, raised, or what data it
returned, and the control flow around those outcomes is translated from
the Python line by line.
-/

/-! ### ASCII character primitives (Python `str.lower`, `str.upper`, `\d`)

The identifiers handled by the program are ASCII, so Python's `str.lower`
and `str.capitalize` are modelled by their ASCII case tables. -/

/-- ASCII lower-casing of one character (Python `str.lower` on ASCII). -/
def pyLower (c : Char) : Char :=
  if 65 ≤ c.toNat ∧ c.toNat ≤ 90 then Char.ofNat (c.toNat + 32) else c

/-- ASCII upper-casing of one character (Python `str.upper` on ASCII). -/
def pyUpper (c : Char) : Char :=
  if 97 ≤ c.toNat ∧ c.toNat ≤ 122 then Char.ofNat (c.toNat - 32) else c

/-- ASCII decimal digit test (the regex class `\d`). -/
def pyIsDigit (c : Char) : Bool :=
  48 ≤ c.toNat && c.toNat ≤ 57

/-! ### Python `str.split(sep)` on character lists

`pySplitGo` scans the text left to right; whenever `sep` is a prefix of
the remaining text it emits the accumulated chunk and skips the
separator, exactly like Python's `str.split` with a non-empty separator.
The `Nat` fuel is an upper bound on the scanned length, so the recursion
is structural; the fuel never runs out when it starts at the text
length. -/

def pySplitGo (sep : List Char) : Nat → List Char → List Char → List (List Char)
  | _, [], acc => [acc.reverse]
  | 0, s, acc => [acc.reverse ++ s]
  | n + 1, c :: rest, acc =>
    if sep ≠ [] ∧ sep.isPrefixOf (c :: rest) then
      acc.reverse :: pySplitGo sep n ((c :: rest).drop sep.length) []
    else
      pySplitGo sep n rest (c :: acc)

/-- Python `text.split(sep)` for a non-empty separator. -/
def pySplit (sep : List Char) (s : List Char) : List (List Char) :=
  pySplitGo sep s.length s []

/-- Python `text.split(sep)` at `String` level. -/
def pySplitS (sep s : String) : List String :=
  (pySplit sep.data s.data).map fun l => String.mk l

/-- Python `str.strip()`: drop whitespace from both ends. -/
def pyStrip (s : List Char) : List Char :=
  ((s.dropWhile Char.isWhitespace).reverse.dropWhile Char.isWhitespace).reverse

/-- Join chunks with a separator (used to model `pathlib.Path.stem`). -/
def joinSep (sep : List Char) : List (List Char) → List Char
  | [] => []
  | [x] => x
  | x :: xs => x ++ sep ++ joinSep sep xs

/-! ### Order-preserving deduplication

Both `main.py` (`scrape_all`) and `info_service.py` (`scrape_and_process`)
contain the same loop:

    seen = set(); unique_classes = []
    for cls in all_classes:
        if cls not in seen: seen.add(cls); unique_classes.append(cls)

`dedupSeen seen l` is that loop with the running `seen` set made explicit
(a list used only through membership). -/

def dedupSeen (seen : List String) : List String → List String
  | [] => []
  | c :: cs => if c ∈ seen then dedupSeen seen cs else c :: dedupSeen (c :: seen) cs

/-! ### `main.py`: normalization and result reconciliation -/

/-- Python `x.lower().startswith("uo")`. -/
def lowerStartsWithUo (s : String) : Bool :=
  match s.data with
  | c1 :: c2 :: _ => pyLower c1 == 'u' && pyLower c2 == 'o'
  | _ => false

/-- `main.py` line 34 (`scrape_all`):
`uo_formatted = uo_value if uo_value.lower().startswith("uo") else f"uo{uo_value}"`. -/
def scrapeAllNormalize (x : String) : String :=
  if lowerStartsWithUo x then x else "uo" ++ x

/-- `main.py` lines 97-101 (`main_async`): prepend `"Uo"` when the prefix is
missing, else `uo[:2].capitalize() + uo[2:]` (upper-case the first character
of the two-character slice and lower-case the second). -/
def mainAsyncNormalize (x : String) : String :=
  if lowerStartsWithUo x then
    match x.data with
    | c1 :: c2 :: rest => String.mk (pyUpper c1 :: pyLower c2 :: rest)
    | l => String.mk l
  else "Uo" ++ x

/-- The claim's input shape `/^(uo)?\d+$/i`: an optional case-insensitive
`uo` prefix followed by at least one ASCII digit. -/
def matchesUoPattern (x : String) : Bool :=
  match x.data with
  | [] => false
  | [c] => pyIsDigit c
  | c1 :: c2 :: rest =>
    if (c1 = 'u' ∨ c1 = 'U') ∧ (c2 = 'o' ∨ c2 = 'O') then
      !rest.isEmpty && rest.all pyIsDigit
    else
      pyIsDigit c1 && pyIsDigit c2 && rest.all pyIsDigit

/-- Result dictionary of `InfoService.scrape_and_process`. -/
structure InfoResult where
  success : Bool
  uo : String
  classes : List String
  sources_found : Nat
  deriving DecidableEq

/-- Result dictionary of `MathService.scrape_and_process` /
`MathService.process_xlsx_file`. -/
structure MathResult where
  success : Bool
  uo : String
  classes : List String
  deriving DecidableEq

/-- The `sources` field of `scrape_all`'s combined result. -/
structure Sources where
  gobierno : Bool
  sharepoint : Bool
  deriving DecidableEq

/-- Combined result dictionary returned by `scrape_all`. -/
structure ReconciledResult where
  success : Bool
  uo : String
  classes : List String
  sources : Sources
  deriving DecidableEq

/-- `main.py` lines 43-72: combine the two source results.  Classes of a
source are included only when that source reported success; the combined
list is deduplicated preserving first-seen order; `success` is set when
either source succeeded. -/
def scrapeAllCombine (uoFormatted : String) (infoRes : InfoResult) (mathRes : MathResult) :
    ReconciledResult :=
  let allClasses :=
    (if infoRes.success then infoRes.classes else []) ++
      (if mathRes.success then mathRes.classes else [])
  { success := infoRes.success || mathRes.success
    uo := uoFormatted
    classes := dedupSeen [] allClasses
    sources := { gobierno := infoRes.success, sharepoint := mathRes.success } }

/-! ### `info_service.py`: the HTML (gobierno) source

External interactions are modelled by an outcome environment.  A call to
`get_element_by_uo_single` performs up to `MAX_RETRIES` attempts; each
attempt's interaction with the page has one of the outcomes below,
translated from lines 64-93 of `info_service.py`. -/

/-- Outcome of one attempt of `InfoService.get_element_by_uo_single`:
* `gotoRaisePW`: `page.goto(site_url)` raises `PlaywrightError` (caught,
  retry);
* `gotoRaiseOther`: it raises a non-Playwright exception (propagates out
  of the method);
* `found texts`: an anchor's `href` is present and `page.goto(href)`
  succeeds; `texts` are the `h1 + p` text contents of the resolved page;
* `foundGotoRaisePW`: the `href` is present but `page.goto(href)` raises
  `PlaywrightError` (caught, retry);
* `hrefNone`: `get_attribute("href")` returns `None` (retry);
* `attrRaisePW`: `get_attribute` raises `PlaywrightError` (caught, retry);
* `attrRaiseOther`: it raises a non-Playwright exception (propagates). -/
inductive NavAttempt where
  | gotoRaisePW
  | gotoRaiseOther
  | found (texts : List String)
  | foundGotoRaisePW
  | hrefNone
  | attrRaisePW
  | attrRaiseOther
  deriving DecidableEq

/-- The sequence of attempt outcomes a single candidate URL will produce. -/
def UrlEnv : Type := Nat → NavAttempt

/-- Retry loop of `get_element_by_uo_single` (`info_service.py` lines
63-93): `k` is `retry_count`, the fuel is `MAX_RETRIES - retry_count`.
`Except.error ()` means an exception escaped the method, `Except.ok none`
is the `return None` after exhausting the retries, `Except.ok (some
texts)` is the resolved page. -/
def uoSingleLoop (att : UrlEnv) : Nat → Nat → Except Unit (Option (List String))
  | _, 0 => Except.ok none
  | k, fuel + 1 =>
    match att k with
    | NavAttempt.gotoRaisePW => uoSingleLoop att (k + 1) fuel
    | NavAttempt.gotoRaiseOther => Except.error ()
    | NavAttempt.found texts => Except.ok (some texts)
    | NavAttempt.foundGotoRaisePW => uoSingleLoop att (k + 1) fuel
    | NavAttempt.hrefNone => uoSingleLoop att (k + 1) fuel
    | NavAttempt.attrRaisePW => uoSingleLoop att (k + 1) fuel
    | NavAttempt.attrRaiseOther => Except.error ()

/-- `InfoService.MAX_RETRIES`. -/
def INFO_MAX_RETRIES : Nat := 3

/-- `InfoService.get_element_by_uo_single`. -/
def getElementByUoSingle (att : UrlEnv) : Except Unit (Option (List String)) :=
  uoSingleLoop att 0 INFO_MAX_RETRIES

/-- `InfoService.getListClass` (`info_service.py` lines 116-122):
`class_text[0].split(": ")[1].split("; ")`.  `Except.error ()` models the
`IndexError` raised when `class_text` is empty or the `": "` delimiter is
absent (so the split has no element of index 1). -/
def getListClass (texts : List String) : Except Unit (List String) :=
  match texts with
  | [] => Except.error ()
  | t :: _ =>
    match pySplitS ": " t with
    | _ :: second :: _ => Except.ok (pySplitS "; " second)
    | _ => Except.error ()

/-- The body of the per-URL `try` block of `scrape_and_process`
(`info_service.py` lines 28-38): resolve the page, then parse the roster.
`Except.error ()` is an exception reaching the per-URL `except`. -/
def urlAttempt (u : UrlEnv) : Except Unit (Option (List String)) :=
  match getElementByUoSingle u with
  | Except.error e => Except.error e
  | Except.ok none => Except.ok none
  | Except.ok (some texts) =>
    match getListClass texts with
    | Except.error e => Except.error e
    | Except.ok cls => Except.ok (some cls)

/-- The `for url_index, site_url in enumerate(...)` loop of
`scrape_and_process` (lines 24-41), with accumulator `acc` =
`all_classes` and `cnt` = `success_count`.  An exception from the body is
caught (`except Exception: continue`), and a `None` resolution only logs
a warning; both leave the accumulators unchanged. -/
def infoLoop (uo : String) : List UrlEnv → List String → Nat → InfoResult
  | [], acc, cnt =>
    { success := decide (0 < cnt)
      uo := uo
      classes := dedupSeen [] acc
      sources_found := cnt }
  | u :: rest, acc, cnt =>
    match urlAttempt u with
    | Except.error _ => infoLoop uo rest acc cnt
    | Except.ok none => infoLoop uo rest acc cnt
    | Except.ok (some cls) => infoLoop uo rest (acc ++ cls) (cnt + 1)

/-- `InfoService.scrape_and_process` (`info_service.py` lines 18-56). -/
def infoScrape (uo : String) (urls : List UrlEnv) : InfoResult :=
  infoLoop uo urls [] 0

/-- The parsed class list of one candidate URL when the whole per-URL body
succeeds, `none` otherwise (specification-side view used to state C10). -/
def urlSuccessClasses (u : UrlEnv) : Option (List String) :=
  match urlAttempt u with
  | Except.ok (some cls) => some cls
  | _ => none

/-- Specification-side description of `scrape_and_process`: every URL is
visited, the class lists of the successful URLs are concatenated in URL
order and deduplicated, success holds iff at least one URL succeeded, and
`sources_found` counts the successful URLs. -/
def infoSpecResult (uo : String) (urls : List UrlEnv) : InfoResult :=
  let succ := urls.filterMap urlSuccessClasses
  { success := decide (0 < succ.length)
    uo := uo
    classes := dedupSeen [] succ.flatten
    sources_found := succ.length }

/-! ### `math_service.py`: the spreadsheet (SharePoint) source -/

/-- `MathService.MAX_RETRIES`. -/
def MAX_RETRIES : Nat := 3

/-- Outcome of one attempt of the `while` body of
`MathService._search_and_download_file` (lines 43-98):
* `raise`: some operation of the attempt raised (caught by the
  `except Exception` of the loop, which retries with backoff);
* `notFound`: the attempt completed but `_scroll_and_find_file` returned
  `None` (the code takes the `else` branch at line 85 and returns `None`);
* `found path`: the file was located and downloaded to `path`. -/
inductive MathAttempt where
  | raise
  | notFound
  | found (path : String)
  deriving DecidableEq

/-- Retry loop of `_search_and_download_file`: `k` is `retry_count`, the
fuel is `MAX_RETRIES - retry_count`.  Returns the result, the number of
attempts that were executed, and the list of backoff waits (in seconds,
`wait_time = 5 * retry_count` after the increment) performed between
consecutive attempts. -/
def mathSearchLoop (att : Nat → MathAttempt) : Nat → Nat → Option String × Nat × List Nat
  | k, 0 => (none, k, [])
  | k, fuel + 1 =>
    match att k with
    | MathAttempt.found p => (some p, k + 1, [])
    | MathAttempt.notFound => (none, k + 1, [])
    | MathAttempt.raise =>
      if k + 1 < MAX_RETRIES then
        let t := mathSearchLoop att (k + 1) fuel
        (t.1, t.2.1, 5 * (k + 1) :: t.2.2)
      else
        (none, k + 1, [])

/-- `MathService._search_and_download_file` together with its observable
retry behaviour (result, attempts executed, backoff waits). -/
def mathSearch (att : Nat → MathAttempt) : Option String × Nat × List Nat :=
  mathSearchLoop att 0 MAX_RETRIES

/-- `pathlib.Path.stem`: final path component without its last suffix. -/
def pathStem (p : String) : List Char :=
  let name := (pySplit ['/'] p.data).getLastD []
  let parts := pySplit ['.'] name
  if parts.length ≤ 1 then name else joinSep ['.'] parts.dropLast

/-- `MathService.process_xlsx_file` (`math_service.py` lines 197-208): a
placeholder that ignores the file contents entirely and unconditionally
returns `success: True` with the dummy class list, using
`file_path.stem.split("_")[-1]` as the `uo` field. -/
def process_xlsx_file (file_path : String) : MathResult :=
  { success := true
    uo := String.mk ((pySplit ['_'] (pathStem file_path)).getLastD [])
    classes := ["Class1", "Class2", "Class3"] }

/-- `MathService.scrape_and_process` (`math_service.py` lines 20-37): a
`None` search result yields the failure dictionary, otherwise the
downloaded file is handed to `process_xlsx_file` (and then unlinked). -/
def mathScrape (uo : String) (att : Nat → MathAttempt) : MathResult :=
  match (mathSearch att).1 with
  | none => { success := false, uo := uo, classes := [] }
  | some path => process_xlsx_file path

/-- `main.py` `scrape_all` (lines 28-75): normalize the identifier, run the
HTML source, run the spreadsheet source, combine. -/
def scrapeAllRun (uoValue : String) (urls : List UrlEnv) (att : Nat → MathAttempt) :
    ReconciledResult :=
  let uoF := scrapeAllNormalize uoValue
  scrapeAllCombine uoF (infoScrape uoF urls) (mathScrape uoF att)

/-! ### `_scroll_and_find_file` (`math_service.py` lines 103-166)

The virtualized row list is modelled by the function `rows`: `rows i` are
the row texts rendered at scroll iteration `i` (`none` for a row whose
`inner_text()` raises, which the code catches and skips).  `dl i` is the
result of `_download_file` if it is triggered at iteration `i`, and
`scrollOk i` tells whether the `scrollBy`/`wait_for_timeout` pair at the
end of iteration `i` succeeds (on failure the code breaks out of the
loop). -/

/-- Scroll increment used by `_scroll_and_find_file` (pixels). -/
def SCROLL_STEP_PX : Nat := 150

/-- Render pause after each scroll (milliseconds). -/
def SCROLL_PAUSE_MS : Nat := 300

/-- Maximum number of scroll iterations (`max_scroll_attempts`). -/
def MAX_SCROLL_ATTEMPTS : Nat := 500

/-- Candidate file name computed from a row's text (lines 120-133):
first line, stripped; rows not starting with `"Lista_clases_"` are
skipped (`none`); a name containing `".xls"` is truncated right after the
first occurrence of `".xls"`. -/
def rowCandidate (rowText : String) : Option (List Char) :=
  match pySplit [ '\n' ] rowText.data with
  | [] => none
  | l0 :: _ =>
    let fn := pyStrip l0
    if List.isPrefixOf ("Lista_clases_".data) fn then
      some (match pySplit (".xls".data) fn with
        | first :: _ :: _ => first ++ ".xls".data
        | _ => fn)
    else none

/-- Whether a rendered row matches the target file name (`none` = the
row's `inner_text()` raised and the row was skipped). -/
def rowMatches (target : String) (r : Option String) : Bool :=
  match r with
  | none => false
  | some txt =>
    match rowCandidate txt with
    | some fn => fn == target.data
    | none => false

/-- Scan of the currently rendered rows (the `for row in visible_rows`
loop): on the first matching row the function returns `some dlr`, where
`dlr` is the `_download_file` result — the code returns it whether it is
a path or `None`.  No match gives `none` (fall through to scrolling). -/
def scanRows (target : String) (dlr : Option String) : List (Option String) → Option (Option String)
  | [] => none
  | r :: rest => if rowMatches target r then some dlr else scanRows target dlr rest

/-- The scroll loop: `k` is `scroll_attempts`, fuel is
`max_scroll_attempts - scroll_attempts`.  Returns the overall result and
the number of scroll iterations performed. -/
def scrollFindLoop (rows : Nat → List (Option String)) (dl : Nat → Option String)
    (scrollOk : Nat → Bool) (target : String) : Nat → Nat → Option String × Nat
  | k, 0 => (none, k)
  | k, fuel + 1 =>
    match scanRows target (dl k) (rows k) with
    | some r => (r, k)
    | none => if scrollOk k then scrollFindLoop rows dl scrollOk target (k + 1) fuel else (none, k)

/-- `MathService._scroll_and_find_file`. -/
def scrollAndFindFile (rows : Nat → List (Option String)) (dl : Nat → Option String)
    (scrollOk : Nat → Bool) (target : String) : Option String × Nat :=
  scrollFindLoop rows dl scrollOk target 0 MAX_SCROLL_ATTEMPTS

/-! ### `scrapper_manager.py`: session cleanup (`ScrapperManager.cleanup`) -/

/-- The four cleanup actions of `ScrapperManager.cleanup`. -/
inductive CleanStep where
  | closeContext
  | closeBrowser
  | stopEngine
  | removeTempDir
  deriving DecidableEq

/-- How a `cleanup` call can end abnormally. -/
inductive PyErr where
  | attributeError
  | stepFailure
  deriving DecidableEq

/-- Attribute state of a `ScrapperManager`.  `__init__` (lines 17-20) sets
`browser`, `context` and `temp_dir` to `None` but never assigns
`self.playwright`; only `initialize` (line 24) creates that attribute.
The `Bool` fields record whether each of `context` / `browser` /
`temp_dir` is non-`None`, and `playwrightSet` whether the `playwright`
attribute exists at all. -/
structure ManagerState where
  context : Bool
  browser : Bool
  playwrightSet : Bool
  temp_dir : Bool
  deriving DecidableEq

/-- State right after `ScrapperManager.__init__` with `initialize()` never
called. -/
def freshManager : ManagerState :=
  { context := false, browser := false, playwrightSet := false, temp_dir := false }

/-- State after a successful `initialize()`. -/
def initializedManager : ManagerState :=
  { context := true, browser := true, playwrightSet := true, temp_dir := true }

/-- `ScrapperManager.cleanup` (lines 41-50), with `fails s` injecting a
failure into step `s`.  The steps run sequentially with no per-step
exception handling, so a raising step aborts all later steps; only the
temp-directory removal is shielded (`shutil.rmtree(...,
ignore_errors=True)`).  Reading `self.playwright` when the attribute was
never assigned raises `AttributeError`.  Returns the list of completed
steps and the exception that escaped, if any. -/
def cleanup (st : ManagerState) (fails : CleanStep → Bool) : List CleanStep × Option PyErr :=
  if st.context ∧ fails CleanStep.closeContext then ([], some PyErr.stepFailure) else
  let done1 := if st.context then [CleanStep.closeContext] else []
  if st.browser ∧ fails CleanStep.closeBrowser then (done1, some PyErr.stepFailure) else
  let done2 := done1 ++ if st.browser then [CleanStep.closeBrowser] else []
  if ¬ st.playwrightSet then (done2, some PyErr.attributeError) else
  if fails CleanStep.stopEngine then (done2, some PyErr.stepFailure) else
  let done3 := done2 ++ [CleanStep.stopEngine]
  (done3 ++ if st.temp_dir then [CleanStep.removeTempDir] else [], none)

/-! ### Properties of the dedup loop -/

theorem dedupSeen_sublist (l : List String) : ∀ seen, List.Sublist (dedupSeen seen l) l := by
  induction l with
  | nil => intro seen; simp [dedupSeen]
  | cons c cs ih =>
    intro seen
    by_cases h : c ∈ seen
    · rw [dedupSeen, if_pos h]
      exact List.Sublist.cons c (ih seen)
    · rw [dedupSeen, if_neg h]
      exact List.Sublist.cons₂ c (ih (c :: seen))

theorem mem_dedupSeen (l : List String) :
    ∀ seen x, x ∈ dedupSeen seen l ↔ x ∈ l ∧ x ∉ seen := by
  induction l with
  | nil => intro seen x; simp [dedupSeen]
  | cons c cs ih =>
    intro seen x
    by_cases h : c ∈ seen
    · rw [dedupSeen, if_pos h, ih]
      constructor
      · rintro ⟨hx, hns⟩; exact ⟨List.mem_cons_of_mem c hx, hns⟩
      · rintro ⟨hc, hns⟩
        rcases List.mem_cons.1 hc with rfl | hx
        · exact absurd h hns
        · exact ⟨hx, hns⟩
    · rw [dedupSeen, if_neg h]
      constructor
      · intro hmem
        rcases List.mem_cons.1 hmem with rfl | hx
        · exact ⟨List.mem_cons_self x cs, h⟩
        · rcases (ih (c :: seen) x).1 hx with ⟨hxcs, hns⟩
          exact ⟨List.mem_cons_of_mem c hxcs,
            fun hs => hns (List.mem_cons_of_mem c hs)⟩
      · rintro ⟨hc, hns⟩
        by_cases hxc : x = c
        · exact hxc ▸ List.mem_cons_self c _
        · rcases List.mem_cons.1 hc with rfl | hx
          · exact absurd rfl hxc
          · exact List.mem_cons_of_mem c
              ((ih (c :: seen) x).2 ⟨hx, fun hs => by
                rcases List.mem_cons.1 hs with rfl | hs'
                · exact hxc rfl
                · exact hns hs'⟩)

theorem nodup_dedupSeen (l : List String) : ∀ seen, (dedupSeen seen l).Nodup := by
  induction l with
  | nil => intro seen; simp [dedupSeen]
  | cons c cs ih =>
    intro seen
    by_cases h : c ∈ seen
    · rw [dedupSeen, if_pos h]; exact ih seen
    · rw [dedupSeen, if_neg h]
      refine List.nodup_cons.2 ⟨?_, ih (c :: seen)⟩
      intro hc
      exact ((mem_dedupSeen cs (c :: seen) c).1 hc).2 (List.mem_cons_self c seen)

theorem pairwise_indexOf_dedupSeen (l : List String) :
    ∀ seen, (dedupSeen seen l).Pairwise fun x y => l.indexOf x < l.indexOf y := by
  induction l with
  | nil => intro seen; simp [dedupSeen]
  | cons c cs ih =>
    intro seen
    by_cases h : c ∈ seen
    · rw [dedupSeen, if_pos h]
      refine List.Pairwise.imp_of_mem ?_ (ih seen)
      intro a b ha hb hab
      have hac : c ≠ a := fun e => ((mem_dedupSeen cs seen a).1 ha).2 (e ▸ h)
      have hbc : c ≠ b := fun e => ((mem_dedupSeen cs seen b).1 hb).2 (e ▸ h)
      rw [List.indexOf_cons_ne cs hac, List.indexOf_cons_ne cs hbc]
      exact Nat.succ_lt_succ hab
    · rw [dedupSeen, if_neg h]
      refine List.pairwise_cons.2 ⟨?_, ?_⟩
      · intro b hb
        have hbc : c ≠ b := fun e =>
          ((mem_dedupSeen cs (c :: seen) b).1 hb).2 (e ▸ List.mem_cons_self c seen)
        rw [List.indexOf_cons_self, List.indexOf_cons_ne cs hbc]
        exact Nat.succ_pos _
      · refine List.Pairwise.imp_of_mem ?_ (ih (c :: seen))
        intro a b ha hb hab
        have hac : c ≠ a := fun e =>
          ((mem_dedupSeen cs (c :: seen) a).1 ha).2 (e ▸ List.mem_cons_self c seen)
        have hbc : c ≠ b := fun e =>
          ((mem_dedupSeen cs (c :: seen) b).1 hb).2 (e ▸ List.mem_cons_self c seen)
        rw [List.indexOf_cons_ne cs hac, List.indexOf_cons_ne cs hbc]
        exact Nat.succ_lt_succ hab

theorem indexOf_lt_of_pairwise_lt :
    ∀ (m : List String) (f : String → Nat),
      (m.Pairwise fun x y => f x < f y) →
      ∀ x y, x ∈ m → y ∈ m → f x < f y → m.indexOf x < m.indexOf y := by
  intro m f
  induction m with
  | nil => intro _ x y hx _ _; cases hx
  | cons a t ih =>
    intro hp x y hx hy hfx
    rcases List.pairwise_cons.1 hp with ⟨ha, hp'⟩
    rcases List.mem_cons.1 hx with rfl | hx'
    · rcases List.mem_cons.1 hy with rfl | hy'
      · exact absurd hfx (Nat.lt_irrefl _)
      · have hay : x ≠ y := fun e => absurd (e ▸ hfx) (Nat.lt_irrefl _)
        rw [List.indexOf_cons_self, List.indexOf_cons_ne t hay]
        exact Nat.succ_pos _
    · have hxa : a ≠ x := fun e => absurd (ha x (e ▸ hx')) (by rw [e]; exact Nat.lt_irrefl _)
      rcases List.mem_cons.1 hy with rfl | hy'
      · exact absurd hfx (Nat.lt_asymm (ha x hx'))
      · have hya : a ≠ y := fun e => absurd (ha y (e ▸ hy')) (by rw [e]; exact Nat.lt_irrefl _)
        rw [List.indexOf_cons_ne t hxa, List.indexOf_cons_ne t hya]
        exact Nat.succ_lt_succ (ih hp' x y hx' hy' hfx)

/-! ### Characterization of `InfoService.scrape_and_process` and further
loop lemmas -/

theorem infoLoop_eq (uo : String) :
    ∀ (urls : List UrlEnv) (acc : List String) (cnt : Nat),
      infoLoop uo urls acc cnt =
        { success := decide (0 < cnt + (urls.filterMap urlSuccessClasses).length)
          uo := uo
          classes := dedupSeen [] (acc ++ (urls.filterMap urlSuccessClasses).flatten)
          sources_found := cnt + (urls.filterMap urlSuccessClasses).length } := by
  intro urls
  induction urls with
  | nil => intro acc cnt; simp [infoLoop]
  | cons u rest ih =>
    intro acc cnt
    cases hu : urlAttempt u with
    | error e =>
      have hs : urlSuccessClasses u = none := by simp [urlSuccessClasses, hu]
      simp only [infoLoop, hu, List.filterMap_cons, hs, ih]
    | ok v =>
      cases v with
      | none =>
        have hs : urlSuccessClasses u = none := by simp [urlSuccessClasses, hu]
        simp only [infoLoop, hu, List.filterMap_cons, hs, ih]
      | some cls =>
        have hs : urlSuccessClasses u = some cls := by simp [urlSuccessClasses, hu]
        simp only [infoLoop, hu, List.filterMap_cons, hs, ih, List.flatten_cons,
          List.length_cons]
        have h1 : cnt + 1 + (List.filterMap urlSuccessClasses rest).length
            = cnt + ((List.filterMap urlSuccessClasses rest).length + 1) := by omega
        rw [List.append_assoc, h1]

theorem filterMap_urlSuccess_eq_nil (urls : List UrlEnv)
    (h : ∀ u ∈ urls, urlAttempt u = Except.error ()) :
    urls.filterMap urlSuccessClasses = [] := by
  induction urls with
  | nil => rfl
  | cons u rest ih =>
    have hu := h u (List.mem_cons_self u rest)
    have hs : urlSuccessClasses u = none := by simp [urlSuccessClasses, hu]
    rw [List.filterMap_cons, hs]
    exact ih fun v hv => h v (List.mem_cons_of_mem u hv)

theorem mathSearchLoop_attempts_le (att : Nat → MathAttempt) :
    ∀ fuel k, (mathSearchLoop att k fuel).2.1 ≤ k + fuel := by
  intro fuel
  induction fuel with
  | zero => intro k; simp [mathSearchLoop]
  | succ n ih =>
    intro k
    rw [mathSearchLoop]
    cases att k with
    | found p => simp
    | notFound => simp
    | raise =>
      simp only
      by_cases hk : k + 1 < MAX_RETRIES
      · rw [if_pos hk]
        calc (mathSearchLoop att (k + 1) n).2.1 ≤ k + 1 + n := ih (k + 1)
          _ = k + (n + 1) := by omega
      · rw [if_neg hk]
        simp

theorem mathSearch_all_raise (att : Nat → MathAttempt)
    (h : ∀ i, i < MAX_RETRIES → att i = MathAttempt.raise) :
    mathSearch att = (none, 3, [5, 10]) := by
  have h0 := h 0 (by norm_num [MAX_RETRIES])
  have h1 := h 1 (by norm_num [MAX_RETRIES])
  have h2 := h 2 (by norm_num [MAX_RETRIES])
  simp [mathSearch, MAX_RETRIES, mathSearchLoop, h0, h1, h2]

theorem scanRows_eq_none (target : String) (dlr : Option String) :
    ∀ l, (∀ r ∈ l, rowMatches target r = false) → scanRows target dlr l = none := by
  intro l
  induction l with
  | nil => intro _; rfl
  | cons r rest ih =>
    intro h
    rw [scanRows, h r (List.mem_cons_self r rest)]
    exact ih fun v hv => h v (List.mem_cons_of_mem r hv)

theorem scrollFindLoop_no_match (rows : Nat → List (Option String))
    (dl : Nat → Option String) (scrollOk : Nat → Bool) (target : String)
    (h : ∀ i r, r ∈ rows i → rowMatches target r = false) :
    ∀ fuel k, (scrollFindLoop rows dl scrollOk target k fuel).1 = none ∧
      (scrollFindLoop rows dl scrollOk target k fuel).2 ≤ k + fuel := by
  intro fuel
  induction fuel with
  | zero => intro k; simp [scrollFindLoop]
  | succ n ih =>
    intro k
    rw [scrollFindLoop, scanRows_eq_none target (dl k) (rows k) (h k)]
    by_cases hs : scrollOk k = true
    · rw [if_pos hs]
      refine ⟨(ih (k + 1)).1, ?_⟩
      calc (scrollFindLoop rows dl scrollOk target (k + 1) n).2 ≤ k + 1 + n := (ih (k + 1)).2
        _ = k + (n + 1) := by omega
    · rw [if_neg hs]
      exact ⟨rfl, Nat.le_add_right k (n + 1)⟩

theorem lowerStartsWithUo_uo_append (x : String) : lowerStartsWithUo ("uo" ++ x) = true := by
  cases x with
  | mk l => rfl

theorem lowerStartsWithUo_Uo_append (x : String) : lowerStartsWithUo ("Uo" ++ x) = true := by
  cases x with
  | mk l => rfl

theorem scrapeAllNormalize_uo_append (x : String) :
    scrapeAllNormalize ("uo" ++ x) = "uo" ++ x := by
  cases x with
  | mk l => rfl

theorem mainAsyncNormalize_Uo_append (x : String) :
    mainAsyncNormalize ("Uo" ++ x) = "Uo" ++ x := by
  cases x with
  | mk l => rfl

theorem scrapeAllNormalize_idem (x : String) :
    scrapeAllNormalize (scrapeAllNormalize x) = scrapeAllNormalize x := by
  by_cases h : lowerStartsWithUo x = true
  · simp [scrapeAllNormalize, h]
  · have hx : scrapeAllNormalize x = "uo" ++ x := by rw [scrapeAllNormalize, if_neg h]
    rw [hx, scrapeAllNormalize_uo_append]

theorem lowerStartsWithUo_scrapeAllNormalize (x : String) :
    lowerStartsWithUo (scrapeAllNormalize x) = true := by
  by_cases h : lowerStartsWithUo x = true
  · rw [scrapeAllNormalize, if_pos h]; exact h
  · rw [scrapeAllNormalize, if_neg h]; exact lowerStartsWithUo_uo_append x

theorem pyLower_of_digit_ne_u (c : Char) (h : pyIsDigit c = true) :
    (pyLower c == 'u') = false := by
  have hb : 48 ≤ c.toNat ∧ c.toNat ≤ 57 := by
    simpa [pyIsDigit] using h
  rw [pyLower, if_neg (by omega)]
  rw [beq_eq_false_iff_ne]
  intro e
  have : c.toNat = 117 := by rw [e]; decide
  omega

theorem lowerStartsWithUo_digit_head (c1 c2 : Char) (rest : List Char)
    (h1 : pyIsDigit c1 = true) :
    lowerStartsWithUo (String.mk (c1 :: c2 :: rest)) = false := by
  show (pyLower c1 == 'u' && pyLower c2 == 'o') = false
  rw [pyLower_of_digit_ne_u c1 h1, Bool.false_and]

theorem mainAsyncNormalize_pattern (x : String) (hx : matchesUoPattern x = true) :
    mainAsyncNormalize (mainAsyncNormalize x) = mainAsyncNormalize x ∧
    lowerStartsWithUo (mainAsyncNormalize x) = true := by
  by_cases h : lowerStartsWithUo x = true
  · obtain ⟨l⟩ := x
    match l with
    | [] => simp [lowerStartsWithUo] at h
    | [c] => simp [lowerStartsWithUo] at h
    | c1 :: c2 :: rest =>
      simp only [matchesUoPattern] at hx
      by_cases hpre : (c1 = 'u' ∨ c1 = 'U') ∧ (c2 = 'o' ∨ c2 = 'O')
      · rcases hpre with ⟨h1 | h1, h2 | h2⟩ <;> subst h1 <;> subst h2 <;>
          exact ⟨rfl, rfl⟩
      · rw [if_neg hpre] at hx
        have h1 : pyIsDigit c1 = true := by
          simp only [Bool.and_eq_true] at hx
          exact hx.1.1
        rw [lowerStartsWithUo_digit_head c1 c2 rest h1] at h
        cases h
  · have hm : mainAsyncNormalize x = "Uo" ++ x := by
      rw [mainAsyncNormalize, if_neg h]
    rw [hm, mainAsyncNormalize_Uo_append, lowerStartsWithUo_Uo_append]
    exact ⟨rfl, rfl⟩

/-! ### The claims -/

/-- C1: for every pair of class-token lists `A` (HTML source) and `B`
(spreadsheet source), both successful, the merged list of `scrape_all` is
the first-occurrence dedup of `A ++ B`: it has the same members as
`A ++ B`, contains each distinct token exactly once, is a sublist of
`A ++ B`, its elements are ordered by the position of their first
occurrence in `A ++ B`, and every token of `A` precedes every token that
occurs only in `B` (HTML-source tokens before spreadsheet-source
tokens). -/
theorem c1_reconciler_merge_dedup (A B : List String) (uoF uoI uoM : String) (sf : Nat) :
    (scrapeAllCombine uoF { success := true, uo := uoI, classes := A, sources_found := sf }
        { success := true, uo := uoM, classes := B }).classes = dedupSeen [] (A ++ B)
  ∧ (∀ x, x ∈ dedupSeen [] (A ++ B) ↔ x ∈ A ++ B)
  ∧ (∀ x ∈ A ++ B, (dedupSeen [] (A ++ B)).count x = 1)
  ∧ List.Sublist (dedupSeen [] (A ++ B)) (A ++ B)
  ∧ ((dedupSeen [] (A ++ B)).Pairwise fun x y => (A ++ B).indexOf x < (A ++ B).indexOf y)
  ∧ ∀ x ∈ A, ∀ y ∈ B, y ∉ A →
      (dedupSeen [] (A ++ B)).indexOf x < (dedupSeen [] (A ++ B)).indexOf y := by
  refine ⟨rfl, ?_, ?_, dedupSeen_sublist _ [], pairwise_indexOf_dedupSeen _ [], ?_⟩
  · intro x; rw [mem_dedupSeen]; simp
  · intro x hx
    exact List.count_eq_one_of_mem (nodup_dedupSeen _ [])
      ((mem_dedupSeen _ [] x).2 ⟨hx, by simp⟩)
  · intro x hxA y hyB hyA
    apply indexOf_lt_of_pairwise_lt _ _ (pairwise_indexOf_dedupSeen _ [])
    · exact (mem_dedupSeen _ [] x).2 ⟨List.mem_append_left B hxA, by simp⟩
    · exact (mem_dedupSeen _ [] y).2 ⟨List.mem_append_right A hyB, by simp⟩
    · rw [List.indexOf_append_of_mem hxA, List.indexOf_append_of_not_mem hyA]
      exact lt_of_lt_of_le (List.indexOf_lt_length.2 hxA) (Nat.le_add_right _ _)

/-- Witness for C1 at the end-to-end example of the specification:
`A = ["Alg.T.2", "SO.T.1"]`, `B = ["SO.T.1", "TPP.L.5"]` merge to
`["Alg.T.2", "SO.T.1", "TPP.L.5"]`. -/
theorem c1_reconciler_merge_dedup_witness :
    (scrapeAllCombine "uo301887"
        { success := true, uo := "uo301887", classes := ["Alg.T.2", "SO.T.1"],
          sources_found := 1 }
        { success := true, uo := "uo301887", classes := ["SO.T.1", "TPP.L.5"] }).classes
      = dedupSeen [] (["Alg.T.2", "SO.T.1"] ++ ["SO.T.1", "TPP.L.5"])
  ∧ (dedupSeen [] (["Alg.T.2", "SO.T.1"] ++ ["SO.T.1", "TPP.L.5"])).count "SO.T.1" = 1
  ∧ dedupSeen [] (["Alg.T.2", "SO.T.1"] ++ ["SO.T.1", "TPP.L.5"])
      = ["Alg.T.2", "SO.T.1", "TPP.L.5"] := by
  have h := c1_reconciler_merge_dedup ["Alg.T.2", "SO.T.1"] ["SO.T.1", "TPP.L.5"]
    "uo301887" "uo301887" "uo301887" 1
  exact ⟨h.1, h.2.2.1 "SO.T.1" (by decide), by decide⟩

/-- C2: the reconciled success flag is exactly the disjunction of the two
source success flags, and when both sources fail the reconciled class
list is empty. -/
theorem c2_reconciled_success (uoF : String) (i : InfoResult) (m : MathResult) :
    (scrapeAllCombine uoF i m).success = (i.success || m.success)
  ∧ (i.success = false → m.success = false → (scrapeAllCombine uoF i m).classes = []) := by
  refine ⟨rfl, ?_⟩
  intro hi hm
  simp [scrapeAllCombine, hi, hm, dedupSeen]

/-- Witness for C2 with two failed sources. -/
theorem c2_reconciled_success_witness :
    (scrapeAllCombine "uo1" { success := false, uo := "uo1", classes := ["X"], sources_found := 0 }
        { success := false, uo := "uo1", classes := ["Y"] }).success = (false || false)
  ∧ (scrapeAllCombine "uo1" { success := false, uo := "uo1", classes := ["X"], sources_found := 0 }
        { success := false, uo := "uo1", classes := ["Y"] }).classes = [] := by
  have h := c2_reconciled_success "uo1"
    { success := false, uo := "uo1", classes := ["X"], sources_found := 0 }
    { success := false, uo := "uo1", classes := ["Y"] }
  exact ⟨h.1, h.2 rfl rfl⟩

/-- C3: per-source exceptions are caught at the source boundary and
converted to a failed result.  When every per-URL attempt of the HTML
source raises, `scrape_and_process` still returns the structured failure
dictionary, and `scrape_all` still evaluates the spreadsheet source
(second conjunct); symmetrically, when every attempt of the spreadsheet
source raises, its `scrape_and_process` returns the failure dictionary
and `scrape_all` still evaluates the HTML source (fourth conjunct).
Session-lifecycle operations (`create_page`, `page.close`), which the
claim exempts, are modelled as succeeding. -/
theorem c3_exception_isolation (uoF : String) (urls urls2 : List UrlEnv)
    (att att2 : Nat → MathAttempt)
    (hinfo : ∀ u ∈ urls, urlAttempt u = Except.error ())
    (hmath : ∀ i, i < MAX_RETRIES → att2 i = MathAttempt.raise) :
    infoScrape uoF urls = { success := false, uo := uoF, classes := [], sources_found := 0 }
  ∧ scrapeAllRun uoF urls att
      = scrapeAllCombine (scrapeAllNormalize uoF)
          { success := false, uo := scrapeAllNormalize uoF, classes := [], sources_found := 0 }
          (mathScrape (scrapeAllNormalize uoF) att)
  ∧ mathScrape uoF att2 = { success := false, uo := uoF, classes := [] }
  ∧ scrapeAllRun uoF urls2 att2
      = scrapeAllCombine (scrapeAllNormalize uoF)
          (infoScrape (scrapeAllNormalize uoF) urls2)
          { success := false, uo := scrapeAllNormalize uoF, classes := [] } := by
  have hnil := filterMap_urlSuccess_eq_nil urls hinfo
  have hInfo : ∀ name, infoScrape name urls =
      { success := false, uo := name, classes := [], sources_found := 0 } := by
    intro name
    rw [infoScrape, infoLoop_eq, hnil]
    rfl
  have hMath : ∀ name, mathScrape name att2 =
      { success := false, uo := name, classes := [] } := by
    intro name
    rw [mathScrape, mathSearch_all_raise att2 hmath]
  refine ⟨hInfo uoF, ?_, hMath uoF, ?_⟩
  · rw [scrapeAllRun, hInfo (scrapeAllNormalize uoF)]
  · rw [scrapeAllRun, hMath (scrapeAllNormalize uoF)]

/-- Witness for C3: one URL whose attempt raises a non-Playwright
exception, and a spreadsheet source whose every attempt raises. -/
theorem c3_exception_isolation_witness :
    infoScrape "uo301887" [fun _ => NavAttempt.gotoRaiseOther]
      = { success := false, uo := "uo301887", classes := [], sources_found := 0 }
  ∧ mathScrape "uo301887" (fun _ => MathAttempt.raise)
      = { success := false, uo := "uo301887", classes := [] } := by
  have h := c3_exception_isolation "uo301887" [fun _ => NavAttempt.gotoRaiseOther] []
    (fun _ => MathAttempt.notFound) (fun _ => MathAttempt.raise)
    (by intro u hu
        rcases List.mem_cons.1 hu with rfl | hu2
        · rfl
        · exact absurd hu2 (List.not_mem_nil u))
    (fun i _ => rfl)
  exact ⟨h.1, h.2.2.1⟩

/-- C4 (code bug): `process_xlsx_file` is a placeholder that never reads
the file, so on the path of the repository's own test
`test_process_xlsx_file_not_found` (a non-existent file) it returns
`success: True` with the dummy class list instead of the required soft
failure `{success: False, classes: []}`. -/
theorem c4_process_xlsx_placeholder :
    process_xlsx_file "/tmp/non_existent_file.xls"
      = { success := true, uo := "file", classes := ["Class1", "Class2", "Class3"] } := by
  rfl

/-- C5 counterexample: the input `"UO123"` matches `/^(uo)?\d+$/i`, but
`scrape_all`'s normalization keeps it as `"UO123"` — not the lowercase
`"uo"` prefix plus the digits required by the claim — and `main_async`'s
normalization turns even `"uo123"` into `"Uo123"`, again without a
lowercase `"uo"` prefix. -/
theorem c5_normalization_counterexample :
    matchesUoPattern "UO123" = true
  ∧ scrapeAllNormalize "UO123" = "UO123"
  ∧ scrapeAllNormalize "UO123" ≠ "uo123"
  ∧ (mainAsyncNormalize "uo123").data.take 2 ≠ [ 'u', 'o' ] := by
  decide

/-- C5 amended: for inputs matching `/^(uo)?\d+$/i` both entry-point
normalizations are idempotent and guarantee a case-insensitive `uo`
prefix; an input without the prefix gets `"uo"` (scrape_all) or `"Uo"`
(main_async) prepended to the original digits, and an input that already
has a case-variant prefix is kept unchanged by `scrape_all` (so the
prefix is not canonicalized to lowercase). -/
theorem c5_normalization_amended (x : String) (hx : matchesUoPattern x = true) :
    scrapeAllNormalize (scrapeAllNormalize x) = scrapeAllNormalize x
  ∧ mainAsyncNormalize (mainAsyncNormalize x) = mainAsyncNormalize x
  ∧ lowerStartsWithUo (scrapeAllNormalize x) = true
  ∧ lowerStartsWithUo (mainAsyncNormalize x) = true
  ∧ (lowerStartsWithUo x = true → scrapeAllNormalize x = x)
  ∧ (lowerStartsWithUo x = false →
      scrapeAllNormalize x = "uo" ++ x ∧ mainAsyncNormalize x = "Uo" ++ x) := by
  refine ⟨scrapeAllNormalize_idem x, (mainAsyncNormalize_pattern x hx).1,
    lowerStartsWithUo_scrapeAllNormalize x, (mainAsyncNormalize_pattern x hx).2,
    fun h => by rw [scrapeAllNormalize, if_pos h],
    fun h => ⟨by rw [scrapeAllNormalize, if_neg (by simp [h])],
      by rw [mainAsyncNormalize, if_neg (by simp [h])]⟩⟩

/-- Witness for the amended C5 at the digits-only input `"301887"`. -/
theorem c5_normalization_amended_witness :
    matchesUoPattern "301887" = true
  ∧ scrapeAllNormalize "301887" = "uo" ++ "301887"
  ∧ mainAsyncNormalize "301887" = "Uo" ++ "301887"
  ∧ scrapeAllNormalize (scrapeAllNormalize "301887") = scrapeAllNormalize "301887" := by
  have h := c5_normalization_amended "301887" (by decide)
  exact ⟨by decide, (h.2.2.2.2.2 (by decide)).1, (h.2.2.2.2.2 (by decide)).2, h.1⟩

/-- C6 (code bug): calling `cleanup()` on a manager on which
`initialize()` was never called raises `AttributeError` (the `playwright`
attribute is never created by `__init__`), instead of being a no-op; and
the steps are not best-effort: injecting a failure into the
context-close step aborts every remaining step. -/
theorem c6_cleanup_bug :
    cleanup freshManager (fun _ => false) = ([], some PyErr.attributeError)
  ∧ cleanup initializedManager (fun s => s == CleanStep.closeContext)
      = ([], some PyErr.stepFailure) := by
  exact ⟨rfl, rfl⟩

/-- C7 counterexample: an attempt of `_search_and_download_file` that
completes with "not found" is not retried — the function returns after a
single attempt, not `MAX_RETRIES` attempts, with no backoff waits. -/
theorem c7_retry_counterexample :
    mathSearch (fun _ => MathAttempt.notFound) = (none, 1, [])
  ∧ (1 : Nat) ≠ MAX_RETRIES := by
  exact ⟨rfl, by decide⟩

/-- C7 amended: the attempt count never exceeds `MAX_RETRIES`; injecting
an exception into every attempt yields exactly `MAX_RETRIES` attempts
with backoff waits `5 * 1` and `5 * 2` seconds between consecutive
attempts and degrades to the per-source failure dictionary; but an
attempt that completes with "not found" (or a successful download)
returns immediately after a single attempt, with no retry. -/
theorem c7_retry_amended (att : Nat → MathAttempt) (uo : String) :
    (mathSearch att).2.1 ≤ MAX_RETRIES
  ∧ ((∀ i, i < MAX_RETRIES → att i = MathAttempt.raise) →
      mathSearch att = (none, MAX_RETRIES, [5 * 1, 5 * 2])
      ∧ mathScrape uo att = { success := false, uo := uo, classes := [] })
  ∧ (att 0 = MathAttempt.notFound → mathSearch att = (none, 1, []))
  ∧ (∀ p, att 0 = MathAttempt.found p → mathSearch att = (some p, 1, [])) := by
  refine ⟨?_, ?_, ?_, ?_⟩
  · have h := mathSearchLoop_attempts_le att MAX_RETRIES 0
    rw [mathSearch]
    omega
  · intro h
    have hm := mathSearch_all_raise att h
    refine ⟨by rw [hm]; rfl, ?_⟩
    rw [mathScrape, hm]
  · intro h0
    simp [mathSearch, MAX_RETRIES, mathSearchLoop, h0]
  · intro p hp
    simp [mathSearch, MAX_RETRIES, mathSearchLoop, hp]

/-- Witness for the amended C7 under all-raising injection. -/
theorem c7_retry_amended_witness :
    mathSearch (fun _ => MathAttempt.raise) = (none, MAX_RETRIES, [5 * 1, 5 * 2])
  ∧ mathScrape "uo301887" (fun _ => MathAttempt.raise)
      = { success := false, uo := "uo301887", classes := [] } := by
  exact (c7_retry_amended (fun _ => MathAttempt.raise) "uo301887").2.1 (fun i _ => rfl)

/-- C8: `getListClass` parses `"Asignaturas: Alg.T.2; Alg.S.1; Alg.L.3"`
to `["Alg.T.2", "Alg.S.1", "Alg.L.3"]`; on input lacking the `": "`
delimiter it raises the modelled `IndexError`, which the per-URL handler
of `scrape_and_process` catches and reports as a per-source failure
rather than a crash. -/
theorem c8_roster_parse :
    getListClass ["Asignaturas: Alg.T.2; Alg.S.1; Alg.L.3"]
      = Except.ok ["Alg.T.2", "Alg.S.1", "Alg.L.3"]
  ∧ ∀ (t uo : String), (pySplitS ": " t).length = 1 →
      getListClass [t] = Except.error ()
      ∧ infoScrape uo [fun _ => NavAttempt.found [t]]
          = { success := false, uo := uo, classes := [], sources_found := 0 } := by
  refine ⟨rfl, ?_⟩
  intro t uo h
  have herr : getListClass [t] = Except.error () := by
    cases hsp : pySplitS ": " t with
    | nil => simp [hsp] at h
    | cons a tail =>
      cases tail with
      | nil => simp [getListClass, hsp]
      | cons b tail2 => simp [hsp] at h
  refine ⟨herr, ?_⟩
  have hua : urlAttempt (fun _ => NavAttempt.found [t]) = Except.error () := by
    simp [urlAttempt, getElementByUoSingle, INFO_MAX_RETRIES, uoSingleLoop, herr]
  rw [infoScrape, infoLoop_eq]
  have hfm : List.filterMap urlSuccessClasses [fun _ => NavAttempt.found [t]] = [] := by
    simp [List.filterMap_cons, urlSuccessClasses, hua]
  rw [hfm]
  rfl

/-- Witness for C8 at a text without the `": "` delimiter. -/
theorem c8_roster_parse_witness :
    getListClass ["Asignaturas Alg.T.2"] = Except.error ()
  ∧ infoScrape "uo301887" [fun _ => NavAttempt.found ["Asignaturas Alg.T.2"]]
      = { success := false, uo := "uo301887", classes := [], sources_found := 0 } := by
  exact (c8_roster_parse).2 "Asignaturas Alg.T.2" "uo301887" (by decide)

/-- C9: if no rendered row ever matches the target file name,
`_scroll_and_find_file` terminates within the 500-iteration scroll
ceiling and returns "not found" (`none`). -/
theorem c9_scroll_bound (rows : Nat → List (Option String)) (dl : Nat → Option String)
    (scrollOk : Nat → Bool) (target : String)
    (h : ∀ i r, r ∈ rows i → rowMatches target r = false) :
    (scrollAndFindFile rows dl scrollOk target).1 = none
  ∧ (scrollAndFindFile rows dl scrollOk target).2 ≤ MAX_SCROLL_ATTEMPTS := by
  have hl := scrollFindLoop_no_match rows dl scrollOk target h MAX_SCROLL_ATTEMPTS 0
  rw [scrollAndFindFile]
  exact ⟨hl.1, by have h2 := hl.2; omega⟩

/-- Witness for C9 with a row stream that never matches. -/
theorem c9_scroll_bound_witness :
    (scrollAndFindFile (fun _ => [some "B04", none]) (fun _ => none) (fun _ => true)
        "Lista_clases_UO301887@uniovi.es.xls").1 = none
  ∧ (scrollAndFindFile (fun _ => [some "B04", none]) (fun _ => none) (fun _ => true)
        "Lista_clases_UO301887@uniovi.es.xls").2 ≤ MAX_SCROLL_ATTEMPTS := by
  apply c9_scroll_bound
  intro i r hr
  rcases List.mem_cons.1 hr with rfl | hr2
  · decide
  · rcases List.mem_cons.1 hr2 with rfl | hr3
    · rfl
    · exact absurd hr3 (List.not_mem_nil r)

/-- C10: `InfoService.scrape_and_process` visits every configured URL
(it never stops early), concatenates the class lists of all successful
URLs in URL order, deduplicates preserving first-seen order, reports
success iff at least one URL yielded a resolved page whose roster parsed,
and reports the number of successful URLs as `sources_found`. -/
theorem c10_info_scrape_characterization (uo : String) (urls : List UrlEnv) :
    infoScrape uo urls = infoSpecResult uo urls := by
  simp [infoScrape, infoLoop_eq, infoSpecResult]
